import Mathlib

/-!
# Verification of the scalar Kalman filter (KalmanFilter.ipynb)

Shallow embedding of the two source functions of the notebook's cell-3

```python
def add_gaussians(x, P, u, Q):
    return (x+u, P+Q)
def multiply_gaussians(z, R, x, P):
    kalman_gain = P/(P+R)
    residual = z - x
    return (x + kalman_gain*residual, (P*R)/(P+R))
```

Floating-point numbers are embedded as exact rationals `ℚ`.  Python's
division raises `ZeroDivisionError` when the denominator is zero (also for
floats), so `multiply_gaussians` is embedded as a fallible function
returning `Option`: `none` is the raised `ZeroDivisionError`, `some` the
returned pair.  `add_gaussians` contains no fallible operation and stays
total.
-/

/-- The Kalman gain `P/(P+R)` bound to the local name `kalman_gain` inside
the source's `multiply_gaussians`.  The source only evaluates it when
`P + R ≠ 0` (otherwise Python raises before the value exists); on that
domain the Lean value agrees with the source. -/
def kalman_gain (R P : ℚ) : ℚ := P / (P + R)

/-- Source `add_gaussians(x, P, u, Q) = (x+u, P+Q)`: convolution of two
Gaussians, the scalar predict step. -/
def add_gaussians (x P u Q : ℚ) : ℚ × ℚ := (x + u, P + Q)

/-- Source `multiply_gaussians(z, R, x, P)`: product of two Gaussians, the
scalar update step.  Python evaluates `P/(P+R)` first and raises
`ZeroDivisionError` when `P + R = 0`; the second division has the same
denominator, so the zero test covers both. -/
def multiply_gaussians (z R x P : ℚ) : Option (ℚ × ℚ) :=
  if P + R = 0 then none
  else
    let residual := z - x
    some (x + kalman_gain R P * residual, (P * R) / (P + R))

/-- Scalar belief state of the filter, spec section 3: a mean and a
variance. -/
structure GaussianBelief where
  mean : ℚ
  variance : ℚ
deriving DecidableEq, Repr

namespace ScalarGaussianFilter

/-- The filter's predict call: `add_gaussians` applied to the current
belief and the control input `(u, Q)`. -/
def predict (b : GaussianBelief) (u Q : ℚ) : GaussianBelief :=
  let p := add_gaussians b.mean b.variance u Q
  ⟨p.1, p.2⟩

/-- The filter's update call: `multiply_gaussians` applied to the
measurement `(z, R)` and the current belief; fails exactly when the
source raises `ZeroDivisionError`. -/
def update (b : GaussianBelief) (z R : ℚ) : Option GaussianBelief :=
  (multiply_gaussians z R b.mean b.variance).map fun p => ⟨p.1, p.2⟩

end ScalarGaussianFilter

/-- One time step of the driver loop: a control input `(u, Q)` followed by
a measurement `(z, R)`, as in the notebook's cell-4 loop. -/
structure Step where
  u : ℚ
  Q : ℚ
  z : ℚ
  R : ℚ
deriving DecidableEq, Repr

/-- Run a sequence of steps through the scalar filter, recording the
belief after every predict call and after every update call; fails as soon
as one update raises. -/
def runScalar : List Step → GaussianBelief → Option (List GaussianBelief)
  | [], _ => some []
  | s :: rest, b =>
      let bp := ScalarGaussianFilter.predict b s.u s.Q
      match ScalarGaussianFilter.update bp s.z s.R with
      | none => none
      | some bu => (runScalar rest bu).map fun l => bp :: bu :: l

/- Theorems -/

/-- C1: for every belief `(x, P)` and measurement `(z, R)` with the gain
defined (`P + R ≠ 0`, otherwise the source raises `ZeroDivisionError`),
the scalar update returns mean `x + kalman_gain * (z - x)` and variance
`P * R / (P + R)` with `kalman_gain = P / (P + R)`. -/
theorem multiply_gaussians_eq (z R x P : ℚ) (h : P + R ≠ 0) :
    multiply_gaussians z R x P =
      some (x + (P / (P + R)) * (z - x), P * R / (P + R)) ∧
      kalman_gain R P = P / (P + R) := by
  constructor
  · simp [multiply_gaussians, h, kalman_gain]
  · rfl

theorem multiply_gaussians_eq_witness :
    multiply_gaussians 3 1 2 1 =
      some (2 + ((1 : ℚ) / (1 + 1)) * (3 - 2), 1 * 1 / (1 + 1)) ∧
      kalman_gain 1 1 = 1 / (1 + 1) :=
  multiply_gaussians_eq 3 1 2 1 (by norm_num)

/-- C2: for every belief `(x, P)` and control input `(u, Q)`, the scalar
predict returns mean `x + u` and variance `P + Q`. -/
theorem add_gaussians_eq (x P u Q : ℚ) :
    add_gaussians x P u Q = (x + u, P + Q) := rfl

/-- C5: whenever `P ≥ 0` and `R ≥ 0`, the Kalman gain `P/(P+R)` computed
inside the scalar update lies in `[0, 1]`.  (At `P = R = 0` the source
raises before any gain exists; Lean's `0/0 = 0` convention still lies in
the interval.) -/
theorem kalman_gain_bounds (R P : ℚ) (hP : 0 ≤ P) (hR : 0 ≤ R) :
    0 ≤ kalman_gain R P ∧ kalman_gain R P ≤ 1 := by
  unfold kalman_gain
  rcases eq_or_lt_of_le (add_nonneg hP hR) with h0 | hpos
  · rw [← h0, div_zero]
    norm_num
  · constructor
    · positivity
    · rw [div_le_one hpos]
      linarith

theorem kalman_gain_bounds_witness :
    0 ≤ kalman_gain 2 3 ∧ kalman_gain 2 3 ≤ 1 :=
  kalman_gain_bounds 2 3 (by norm_num) (by norm_num)

/-- C9: under exact rational arithmetic, `multiply_gaussians` is symmetric
in its two Gaussians: for `P + R ≠ 0`,
`multiply_gaussians z R x P = multiply_gaussians x P z R`. -/
theorem multiply_gaussians_comm (z R x P : ℚ) (h : P + R ≠ 0) :
    multiply_gaussians z R x P = multiply_gaussians x P z R := by
  have h2 : R + P ≠ 0 := by rwa [add_comm]
  simp only [multiply_gaussians, if_neg h, if_neg h2, kalman_gain,
    Option.some.injEq, Prod.mk.injEq]
  constructor
  · field_simp
    ring
  · rw [mul_comm, add_comm R P]

theorem multiply_gaussians_comm_witness :
    multiply_gaussians 7 2 (-1) 3 = multiply_gaussians (-1) 3 7 2 :=
  multiply_gaussians_comm 7 2 (-1) 3 (by norm_num)

/-- C10: two consecutive predict calls compose into one whose control
mean and noise are the sums of the individual ones, and predicting with
`(0, 0)` is the identity. -/
theorem add_gaussians_comp (x P u1 Q1 u2 Q2 : ℚ) :
    add_gaussians (add_gaussians x P u1 Q1).1 (add_gaussians x P u1 Q1).2 u2 Q2 =
      add_gaussians x P (u1 + u2) (Q1 + Q2) ∧
    add_gaussians x P 0 0 = (x, P) := by
  constructor
  · simp [add_gaussians]
    constructor <;> ring
  · simp [add_gaussians]

/-!
## One-dimensional instance of the multivariate filter

The repository implements no `LinearKalmanFilter`; the notebook only
states its equations in markdown and the spec (section 4.2) specifies
them, so the filter is modelled from the spec for the one-dimensional
case needed by the scalar/matrix equivalence law.
-/

/-- Modelled from the spec: `LinearKalmanFilter.predict` of section 4.2,
which has no implementation under src/ — `x' = F·x + B·u`,
`P' = F·P·Fᵗ + Q` — in the one-dimensional case n = m = 1, where every
matrix is a scalar and transposition is the identity. -/
def LinearKalmanFilter.predict1 (x P F Q B u : ℚ) : ℚ × ℚ :=
  (F * x + B * u, F * P * F + Q)

/-- Modelled from the spec: `LinearKalmanFilter.update` of section 4.2,
which has no implementation under src/ — `y = z - H·x`, `S = H·P·Hᵗ + R`,
`K = P·Hᵗ·S⁻¹`, `x' = x + K·y`, `P' = (I - K·H)·P` — in the
one-dimensional case n = k = 1.  A 1×1 matrix `S` is singular exactly
when `S = 0`; that case fails (`SingularInnovationCovarianceError`),
embedded as `none`.  The post-update symmetrization `(P + Pᵗ)/2` of
section 4.2 is the identity on 1×1 matrices and is omitted. -/
def LinearKalmanFilter.update1 (x P z H R : ℚ) : Option (ℚ × ℚ) :=
  let y := z - H * x
  let S := H * P * H + R
  if S = 0 then none
  else
    let K := P * H / S
    some (x + K * y, (1 - K * H) * P)

/-- Run a sequence of scalar steps through the one-dimensional
`LinearKalmanFilter` with the scalars reinterpreted as 1×1 matrices
(`F = H = B = 1`), recording the state after every predict and update. -/
def runKalman1 : List Step → ℚ × ℚ → Option (List (ℚ × ℚ))
  | [], _ => some []
  | s :: rest, (x, P) =>
      let sp := LinearKalmanFilter.predict1 x P 1 s.Q 1 s.u
      match LinearKalmanFilter.update1 sp.1 sp.2 s.z 1 s.R with
      | none => none
      | some su => (runKalman1 rest su).map fun l => sp :: su :: l
lemma update1_eq_multiply (x P z R : ℚ) :
    LinearKalmanFilter.update1 x P z 1 R = multiply_gaussians z R x P := by
  unfold LinearKalmanFilter.update1 multiply_gaussians kalman_gain
  simp only [one_mul, mul_one]
  split_ifs with h
  · rfl
  · have hv : (1 - P / (P + R)) * P = P * R / (P + R) := by
      field_simp
      ring
    rw [hv]

lemma predict1_eq_add (b : GaussianBelief) (u Q : ℚ) :
    LinearKalmanFilter.predict1 b.mean b.variance 1 Q 1 u =
      ((ScalarGaussianFilter.predict b u Q).mean,
       (ScalarGaussianFilter.predict b u Q).variance) := by
  simp only [LinearKalmanFilter.predict1, ScalarGaussianFilter.predict,
    add_gaussians, Prod.mk.injEq]
  constructor <;> ring

/-- C3: for every sequence of scalar inputs and every starting belief,
running the sequence through `ScalarGaussianFilter` and through the
one-dimensional `LinearKalmanFilter` (scalars reinterpreted as 1×1
matrices) yields exactly the same mean and variance sequences — the two
runs fail at the same step or produce equal lists, so in exact arithmetic
they agree within any tolerance. -/
theorem scalar_matrix_equivalence (steps : List Step) (b : GaussianBelief) :
    runKalman1 steps (b.mean, b.variance) =
      (runScalar steps b).map (List.map fun g => (g.mean, g.variance)) := by
  induction steps generalizing b with
  | nil => rfl
  | cons s rest ih =>
    show (match LinearKalmanFilter.update1
        (LinearKalmanFilter.predict1 b.mean b.variance 1 s.Q 1 s.u).1
        (LinearKalmanFilter.predict1 b.mean b.variance 1 s.Q 1 s.u).2 s.z 1 s.R with
      | none => none
      | some su => (runKalman1 rest su).map fun l =>
          LinearKalmanFilter.predict1 b.mean b.variance 1 s.Q 1 s.u :: su :: l) = _
    rw [show (LinearKalmanFilter.predict1 b.mean b.variance 1 s.Q 1 s.u).1 =
        (ScalarGaussianFilter.predict b s.u s.Q).mean by rw [predict1_eq_add],
      show (LinearKalmanFilter.predict1 b.mean b.variance 1 s.Q 1 s.u).2 =
        (ScalarGaussianFilter.predict b s.u s.Q).variance by rw [predict1_eq_add],
      predict1_eq_add, update1_eq_multiply]
    show _ = (match ScalarGaussianFilter.update
        (ScalarGaussianFilter.predict b s.u s.Q) s.z s.R with
      | none => none
      | some bu => (runScalar rest bu).map fun l =>
          ScalarGaussianFilter.predict b s.u s.Q :: bu :: l).map
        (List.map fun g : GaussianBelief => (g.mean, g.variance))
    unfold ScalarGaussianFilter.update
    rcases hm : multiply_gaussians s.z s.R (ScalarGaussianFilter.predict b s.u s.Q).mean
        (ScalarGaussianFilter.predict b s.u s.Q).variance with _ | ⟨p1, p2⟩
    · rfl
    · dsimp only [Option.map_some']
      have ihp : runKalman1 rest (p1, p2) =
          (runScalar rest ⟨p1, p2⟩).map (List.map fun g => (g.mean, g.variance)) :=
        ih ⟨p1, p2⟩
      rw [ihp]
      rcases runScalar rest ⟨p1, p2⟩ with _ | l
      · rfl
      · simp [ScalarGaussianFilter.predict]

lemma update_variance_nonneg (z R : ℚ) (b : GaussianBelief)
    (hP : 0 ≤ b.variance) (hR : 0 ≤ R) (bu : GaussianBelief)
    (h : ScalarGaussianFilter.update b z R = some bu) : 0 ≤ bu.variance := by
  unfold ScalarGaussianFilter.update multiply_gaussians at h
  split_ifs at h with h0
  · simp at h
  · simp only [Option.map_some', Option.some.injEq] at h
    have hpos : 0 < b.variance + R :=
      lt_of_le_of_ne (add_nonneg hP hR) (Ne.symm h0)
    have hv : bu.variance = b.variance * R / (b.variance + R) := by
      rw [← h]
    rw [hv]
    positivity

/-- C4: starting from a belief with nonnegative variance and running any
sequence of steps whose process and measurement noises are all
nonnegative, every belief recorded after a predict call and after an
update call has nonnegative variance. -/
theorem variance_nonneg_invariant (steps : List Step) (b0 : GaussianBelief)
    (h0 : 0 ≤ b0.variance)
    (hQ : ∀ s ∈ steps, 0 ≤ s.Q) (hR : ∀ s ∈ steps, 0 ≤ s.R)
    (bs : List GaussianBelief) (hrun : runScalar steps b0 = some bs) :
    ∀ b ∈ bs, 0 ≤ b.variance := by
  induction steps generalizing b0 bs with
  | nil =>
    unfold runScalar at hrun
    simp only [Option.some.injEq] at hrun
    subst hrun
    simp
  | cons s rest ih =>
    rw [show runScalar (s :: rest) b0 = (match ScalarGaussianFilter.update
        (ScalarGaussianFilter.predict b0 s.u s.Q) s.z s.R with
      | none => none
      | some bu => (runScalar rest bu).map fun l =>
          ScalarGaussianFilter.predict b0 s.u s.Q :: bu :: l) from rfl] at hrun
    rcases hu : ScalarGaussianFilter.update
        (ScalarGaussianFilter.predict b0 s.u s.Q) s.z s.R with _ | bu
    · rw [hu] at hrun
      simp at hrun
    · rw [hu] at hrun
      dsimp only at hrun
      rcases hr : runScalar rest bu with _ | l
      · rw [hr] at hrun
        simp at hrun
      · rw [hr] at hrun
        simp only [Option.map_some', Option.some.injEq] at hrun
        subst hrun
        have hpvar : 0 ≤ (ScalarGaussianFilter.predict b0 s.u s.Q).variance := by
          have he : (ScalarGaussianFilter.predict b0 s.u s.Q).variance =
              b0.variance + s.Q := rfl
          rw [he]
          have := hQ s (by simp)
          linarith
        have huvar : 0 ≤ bu.variance :=
          update_variance_nonneg s.z s.R _ hpvar (hR s (by simp)) bu hu
        intro b hb
        rcases hb with _ | ⟨_, hb⟩
        · exact hpvar
        · rcases hb with _ | ⟨_, hb⟩
          · exact huvar
          · exact ih bu huvar (fun t ht => hQ t (by simp [ht]))
              (fun t ht => hR t (by simp [ht])) l hr b hb

theorem variance_nonneg_invariant_witness :
    0 ≤ (GaussianBelief.mk (13 / 7) (12 / 7)).variance :=
  variance_nonneg_invariant [⟨1, 2, 3, 4⟩] ⟨0, 1⟩ (by norm_num)
    (by intro s hs; simp only [List.mem_singleton] at hs; subst hs; norm_num)
    (by intro s hs; simp only [List.mem_singleton] at hs; subst hs; norm_num)
    [⟨1, 3⟩, ⟨13 / 7, 12 / 7⟩]
    (by norm_num [runScalar, ScalarGaussianFilter.predict,
      ScalarGaussianFilter.update, add_gaussians, multiply_gaussians,
      kalman_gain]) _ (by simp)

/-!
## The convergence scenario of spec section 8

Starting belief `(0, 100)`, fifty rounds of `predict(u=0, Q=0)` followed
by `update(z=5, R=1)`.  The trajectory has the closed form
`mean = 5 - 5/(100·n + 1)`, `variance = 100/(100·n + 1)` after `n` rounds.
-/

/-- The step of the convergence scenario: `u = 0`, `Q = 0`, `z = 5`,
`R = 1`. -/
def scenStep : Step := ⟨0, 0, 5, 1⟩

/-- Closed form of the scenario belief after `n` rounds. -/
def scenBelief (n : ℕ) : GaussianBelief :=
  ⟨5 - 5 / (100 * n + 1), 100 / (100 * n + 1)⟩

/-- Closed form of the belief list `runScalar` records over `k` scenario
rounds starting at round `n`. -/
def scenList : ℕ → ℕ → List GaussianBelief
  | _, 0 => []
  | n, k + 1 => scenBelief n :: scenBelief (n + 1) :: scenList (n + 1) k

lemma scen_predict (n : ℕ) :
    ScalarGaussianFilter.predict (scenBelief n) 0 0 = scenBelief n := by
  simp [ScalarGaussianFilter.predict, add_gaussians, scenBelief]

lemma scen_step_eq (n : ℕ) :
    ScalarGaussianFilter.update
      (ScalarGaussianFilter.predict (scenBelief n) 0 0) 5 1 =
      some (scenBelief (n + 1)) := by
  rw [scen_predict]
  have hd : (0 : ℚ) < 100 * n + 1 := by positivity
  have hd2 : (0 : ℚ) < 100 * n + 101 := by positivity
  unfold ScalarGaussianFilter.update multiply_gaussians kalman_gain scenBelief
  have hne : (100 : ℚ) / (100 * n + 1) + 1 ≠ 0 := by positivity
  rw [if_neg hne]
  simp only [Option.map_some', Option.some.injEq, GaussianBelief.mk.injEq]
  constructor
  · push_cast
    field_simp
    ring
  · push_cast
    field_simp
    ring

lemma scen_run (k n : ℕ) :
    runScalar (List.replicate k scenStep) (scenBelief n) =
      some (scenList n k) := by
  induction k generalizing n with
  | zero => rfl
  | succ k ih =>
    rw [List.replicate_succ]
    show (match ScalarGaussianFilter.update
        (ScalarGaussianFilter.predict (scenBelief n) 0 0) 5 1 with
      | none => none
      | some bu => (runScalar (List.replicate k scenStep) bu).map fun l =>
          ScalarGaussianFilter.predict (scenBelief n) 0 0 :: bu :: l)
      = some (scenList n (k + 1))
    rw [scen_step_eq n]
    dsimp only
    rw [ih (n + 1), scen_predict]
    rfl

lemma scenBelief_variance_le (n : ℕ) :
    (scenBelief (n + 1)).variance ≤ (scenBelief n).variance := by
  show (100 : ℚ) / (100 * (n + 1 : ℕ) + 1) ≤ 100 / (100 * n + 1)
  have h1 : (0 : ℚ) < 100 * n + 1 := by positivity
  have h2 : (100 : ℚ) * n + 1 ≤ 100 * (n + 1 : ℕ) + 1 := by
    push_cast
    linarith
  gcongr

lemma scenList_chain (k n : ℕ) :
    List.Chain' (fun a c : GaussianBelief => c.variance ≤ a.variance)
      (scenBelief n :: scenList n k) := by
  induction k generalizing n with
  | zero => simp [scenList]
  | succ k ih =>
    rw [show scenList n (k + 1) =
      scenBelief n :: scenBelief (n + 1) :: scenList (n + 1) k from rfl]
    rw [List.chain'_cons, List.chain'_cons]
    exact ⟨le_refl _, scenBelief_variance_le n, ih (n + 1)⟩

lemma scenList_last (k n : ℕ) :
    (scenBelief n :: scenList n k).getLast? = some (scenBelief (n + k)) := by
  induction k generalizing n with
  | zero => rfl
  | succ k ih =>
    rw [show scenList n (k + 1) =
      scenBelief n :: scenBelief (n + 1) :: scenList (n + 1) k from rfl]
    rw [List.getLast?_cons_cons, List.getLast?_cons_cons]
    rw [ih (n + 1)]
    congr 2
    omega

/-- C8: starting from the belief `(mean = 0, variance = 100)` and running
fifty rounds of `predict(u=0, Q=0)` then `update(z=5, R=1)`, every call
succeeds, the final recorded mean is within `1/100` of `5`, and the
variance is non-increasing across the whole sequence of recorded beliefs,
the initial one included. -/
theorem convergence_scenario :
    ∃ bs b, runScalar (List.replicate 50 scenStep) ⟨0, 100⟩ = some bs ∧
      bs.getLast? = some b ∧ |b.mean - 5| ≤ 1 / 100 ∧
      List.Chain' (fun a c : GaussianBelief => c.variance ≤ a.variance)
        ((⟨0, 100⟩ : GaussianBelief) :: bs) := by
  have h0 : (⟨0, 100⟩ : GaussianBelief) = scenBelief 0 := by
    norm_num [scenBelief]
  refine ⟨scenList 0 50, scenBelief 50, ?_, ?_, ?_, ?_⟩
  · rw [h0]
    exact scen_run 50 0
  · have h := scenList_last 50 0
    rw [show scenList 0 50 =
      scenBelief 0 :: scenBelief 1 :: scenList 1 49 from rfl]
    rw [List.getLast?_cons_cons]
    rw [show scenList 0 50 =
      scenBelief 0 :: scenBelief 1 :: scenList 1 49 from rfl] at h
    rw [List.getLast?_cons_cons, List.getLast?_cons_cons] at h
    rw [h]
  · have hm : (scenBelief 50).mean = 5 - 5 / 5001 := by
      norm_num [scenBelief]
    rw [hm, show (5 - 5 / 5001 - 5 : ℚ) = -(5 / 5001) by ring, abs_neg,
      abs_of_nonneg (by norm_num)]
    norm_num
  · rw [h0]
    exact scenList_chain 50 0

/-!
## Error handling: what the source actually does

The source functions contain no validation and no error type: predict
accepts any `Q`, update accepts any `R`, and the only failure mode is the
`ZeroDivisionError` raised when `variance + R = 0`.
-/

/-- C6 counterexample: `add_gaussians(0, 1, 0, -1)` with negative noise
`Q = -1` raises nothing — it returns `(0, 0)`, changing the variance from
`1` to `0` — and `multiply_gaussians(0, -1, 0, 2)` with negative noise
`R = -1` returns `(0, -2)` normally, so neither operation fails with
`InvalidInputError` nor leaves the state unchanged. -/
theorem no_validation_counterexample :
    add_gaussians 0 1 0 (-1) = (0, 0) ∧
      multiply_gaussians 0 (-1) 0 2 = some (0, -2) := by
  constructor
  · norm_num [add_gaussians]
  · norm_num [multiply_gaussians, kalman_gain]

/-- C6 (amended): the source performs no input validation.  Predict
accepts `Q < 0` and returns `(mean + u, variance + Q)` normally, and
update accepts `R < 0` and (whenever `variance + R ≠ 0`) returns the
standard formulas normally; no error is raised and the state advances as
usual instead of being left unchanged. -/
theorem no_input_validation (x P u Q z R : ℚ) (hQ : Q < 0) (hR : R < 0)
    (hPR : P + R ≠ 0) :
    add_gaussians x P u Q = (x + u, P + Q) ∧
      multiply_gaussians z R x P =
        some (x + (P / (P + R)) * (z - x), P * R / (P + R)) := by
  refine ⟨rfl, ?_⟩
  simp [multiply_gaussians, kalman_gain, hPR]

theorem no_input_validation_witness :
    add_gaussians 0 2 0 (-1) = (0 + 0, 2 + -1) ∧
      multiply_gaussians 1 (-1) 0 2 =
        some (0 + ((2 : ℚ) / (2 + -1)) * (1 - 0), 2 * -1 / (2 + -1)) :=
  no_input_validation 0 2 0 (-1) 1 (-1) (by norm_num) (by norm_num)
    (by norm_num)

/-- C7 counterexample: at `variance = 0` and `R = 0` the scalar update
evaluates `P/(P+R)` with a zero denominator and raises
`ZeroDivisionError` (embedded as `none`) — no minimum positive noise
floor is injected and no belief is returned. -/
theorem noise_floor_counterexample :
    multiply_gaussians 5 0 0 0 = none := by
  simp [multiply_gaussians]

/-- C7 (amended): whenever `variance + R = 0` the scalar update divides
by zero and fails (Python `ZeroDivisionError`); the source contains no
noise-floor mechanism. -/
theorem update_fails_on_zero_denominator (z R x P : ℚ) (h : P + R = 0) :
    multiply_gaussians z R x P = none := by
  simp [multiply_gaussians, h]

theorem update_fails_on_zero_denominator_witness :
    multiply_gaussians 7 (-3) 1 3 = none :=
  update_fails_on_zero_denominator 7 (-3) 1 3 (by norm_num)
